import Mathlib

/-!
Shallow embedding of `src/CrystalC++.cpp` (Crystal Growth Simulator).

The program keeps a fixed population of particles in a device buffer
(positions region followed by velocities region), advances positions by a
compute shader each frame (`position += velocity * deltaTime`), issues a
memory barrier inside `runComputeShader`, and then draws the particles.
Float32 values are idealized as rationals; GL calls are modelled by their
observable effect on the particle store, the frame-event trace, the
diagnostic log and the control flow of `main`.
-/

namespace Crystal

/-- A 3-component vector, modelling `glm::vec3` (float32 idealized as `ℚ`). -/
structure Vec3 where
  x : ℚ
  y : ℚ
  z : ℚ
  deriving DecidableEq, Repr

/-- The zero vector `glm::vec3(0.0f)`. -/
def Vec3.zero : Vec3 := ⟨0, 0, 0⟩

/-- Componentwise vector addition, modelling `+=` on `vec3`. -/
def Vec3.add (a b : Vec3) : Vec3 := ⟨a.x + b.x, a.y + b.y, a.z + b.z⟩

/-- Scalar multiplication, modelling `vec3 * float`. -/
def Vec3.smul (c : ℚ) (v : Vec3) : Vec3 := ⟨c * v.x, c * v.y, c * v.z⟩

/-- `const int WIDTH = 800;` (line 12). -/
def WIDTH : ℕ := 800

/-- `const int HEIGHT = 600;` (line 13). -/
def HEIGHT : ℕ := 600

/-- `const int MAX_PARTICLES = 100;` (line 14). -/
def MAX_PARTICLES : ℕ := 100

/-- `float simulationSpeed = 1.0f;` (line 16): initial value of the global. -/
def initialSimulationSpeed : ℚ := 1

/-- `bool paused = false;` (line 17): initial value of the global. -/
def initialPaused : Bool := false

/-- `layout(local_size_x = 256) in;` — compute-shader work-group size (line 27). -/
def localSizeX : ℕ := 256

/-- The particle store: the structure-of-arrays contents of `particleBuffer`,
positions region followed by velocities region. -/
structure ParticleStore where
  positions : List Vec3
  velocities : List Vec3
  deriving DecidableEq, Repr

/-- `glm::vec3(0.0f)` — the uniform initial position (line 133). -/
def defaultInitialPosition : Vec3 := Vec3.zero

/-- `glm::vec3(0.01f, 0.0f, 0.0f)` — the uniform initial velocity (line 134). -/
def defaultInitialVelocity : Vec3 := ⟨1/100, 0, 0⟩

/-- `initParticles` generalized over the uniform initial values: the two
`std::vector` fills of lines 133-134 (`count` copies of each value). -/
def initParticlesWith (count : ℕ) (p v : Vec3) : ParticleStore :=
  { positions := List.replicate count p, velocities := List.replicate count v }

/-- `initParticles` (lines 132-151): `count` particles, all positions at the
origin and all velocities equal to `(0.01, 0, 0)`; the program calls it with
`count = MAX_PARTICLES`. -/
def initParticles (count : ℕ) : ParticleStore :=
  initParticlesWith count defaultInitialPosition defaultInitialVelocity

/-- `sizeof(glm::vec3)` in bytes: three 4-byte floats. -/
def sizeofVec3 : ℕ := 12

/-- Byte layout of one buffer allocation: total size and the offset/size of
each region inside it. -/
structure BufferLayout where
  totalSize : ℕ
  posOffset : ℕ
  posSize : ℕ
  velOffset : ℕ
  velSize : ℕ
  deriving DecidableEq, Repr

/-- The layout produced by `initParticles` (lines 138-141): one
`glBufferData` of `MAX_PARTICLES * sizeof(glm::vec3) * 2` bytes, a
`glBufferSubData` of the positions at offset 0 and a `glBufferSubData` of
the velocities at offset `MAX_PARTICLES * sizeof(glm::vec3)`. -/
def particleBufferLayout (count : ℕ) : BufferLayout :=
  { totalSize := count * sizeofVec3 * 2
  , posOffset := 0
  , posSize := count * sizeofVec3
  , velOffset := count * sizeofVec3
  , velSize := count * sizeofVec3 }

/-- Body of one compute-shader invocation (lines 40-43):
`particles[id].position += particles[id].velocity * deltaTime`. -/
def invocationUpdate (deltaTime : ℚ) (p v : Vec3) : Vec3 :=
  Vec3.add p (Vec3.smul deltaTime v)

/-- Positions after a dispatch whose global invocation ids are
`i, i+1, ...`: the particle at id `j` executes `invocationUpdate` exactly
when `j < bound` (ids at or past `bound` are not dispatched). -/
def dispatchPositions (deltaTime : ℚ) (bound : ℕ) : ℕ → List Vec3 → List Vec3 → List Vec3
  | _, [], _ => []
  | _, p :: ps, [] => p :: ps
  | i, p :: ps, v :: vs =>
      (if i < bound then invocationUpdate deltaTime p v else p)
        :: dispatchPositions deltaTime bound (i + 1) ps vs

/-- The group count of `glDispatchCompute(MAX_PARTICLES / 256, 1, 1)`
(line 170): C integer division truncates toward zero. -/
def dispatchGroupCount (count : ℕ) : ℕ := count / localSizeX

/-- Number of compute invocations actually executed: groups times the
work-group size of 256. -/
def dispatchedInvocations (count : ℕ) : ℕ := dispatchGroupCount count * localSizeX

/-- `runComputeShader(deltaTime)` (lines 167-172): set the `deltaTime`
uniform and dispatch `count / 256` groups of 256 invocations over the
particle store; only positions are written. Modelling note: this pairs
invocation `id` with the host-side `positions[id]`/`velocities[id]`, the
intent of the kernel; in the actual GL pipeline the std430 rules give the
`Particle` struct a 32-byte stride while the host fills the buffer as
packed 12-byte vectors, so for a dispatched invocation the bytes read
would differ. Every theorem below applies this definition only with
`count < 256`, where zero invocations are dispatched and the embedding
and the code agree exactly. -/
def runComputeShader (count : ℕ) (store : ParticleStore) (deltaTime : ℚ) : ParticleStore :=
  { store with
      positions :=
        dispatchPositions deltaTime (dispatchedInvocations count) 0 store.positions store.velocities }

/-- Observable GL events of one frame, used to state ordering of the
dispatch, the barrier and the draw. -/
inductive FrameEvent
  | dispatch
  | barrier
  | draw
  | present
  deriving DecidableEq, Repr

/-- Events issued by `runComputeShader` (lines 170-171): the
`glDispatchCompute` followed by `glMemoryBarrier(GL_SHADER_STORAGE_BARRIER_BIT)`. -/
def runComputeShaderEvents : List FrameEvent := [FrameEvent.dispatch, FrameEvent.barrier]

/-- Events issued by `display` (lines 184-195): `renderParticles`
(`glDrawArrays`) followed by `glfwSwapBuffers`. -/
def displayEvents : List FrameEvent := [FrameEvent.draw, FrameEvent.present]

/-- Events of one iteration of the main loop (lines 220-230):
`runComputeShader` runs only when `!paused` (line 225), then `display`. -/
def tickEvents (paused : Bool) : List FrameEvent :=
  (if paused then [] else runComputeShaderEvents) ++ displayEvents

/-- Inputs read by one loop iteration: the `glfwGetTime()` sample and the
current values of the externally toggled globals `paused` and
`simulationSpeed`. -/
structure TickInput where
  currentTime : ℚ
  paused : Bool
  speed : ℚ
  deriving DecidableEq, Repr

/-- State carried across loop iterations: `lastTime` (line 219) and the
particle store. -/
structure DriverState where
  lastTime : ℚ
  store : ParticleStore
  deriving DecidableEq, Repr

/-- One iteration of the main loop (lines 221-229):
`deltaTime = currentTime - lastTime`, `lastTime = currentTime`, and when not
paused `runComputeShader(deltaTime * simulationSpeed)`; `display` does not
touch the store. -/
def tick (count : ℕ) (st : DriverState) (inp : TickInput) : DriverState :=
  let deltaTime := inp.currentTime - st.lastTime
  { lastTime := inp.currentTime
  , store :=
      if inp.paused then st.store
      else runComputeShader count st.store (deltaTime * inp.speed) }

/-- A run of the main loop over a sequence of iterations. -/
def runTicks (count : ℕ) (st : DriverState) (inps : List TickInput) : DriverState :=
  inps.foldl (tick count) st

/-- A 4-component vector for clip-space positions and colors. -/
structure Vec4 where
  x : ℚ
  y : ℚ
  z : ℚ
  w : ℚ
  deriving DecidableEq, Repr

/-- A 4x4 matrix, modelling `glm::mat4`. -/
structure Mat4 where
  entry : Fin 4 → Fin 4 → ℚ

/-- Matrix-vector product `m * v`. -/
def Mat4.mulVec (m : Mat4) (v : Vec4) : Vec4 :=
  { x := m.entry 0 0 * v.x + m.entry 0 1 * v.y + m.entry 0 2 * v.z + m.entry 0 3 * v.w
  , y := m.entry 1 0 * v.x + m.entry 1 1 * v.y + m.entry 1 2 * v.z + m.entry 1 3 * v.w
  , z := m.entry 2 0 * v.x + m.entry 2 1 * v.y + m.entry 2 2 * v.z + m.entry 2 3 * v.w
  , w := m.entry 3 0 * v.x + m.entry 3 1 * v.y + m.entry 3 2 * v.z + m.entry 3 3 * v.w }

/-- Vertex shader body (lines 46-53):
`gl_Position = modelViewProjection * vec4(position, 1.0)`. -/
def vertexShaderMain (mvp : Mat4) (position : Vec3) : Vec4 :=
  Mat4.mulVec mvp ⟨position.x, position.y, position.z, 1⟩

/-- Fragment shader body (lines 55-61): `fragColor = vec4(1.0, 0.0, 0.0, 1.0)`. -/
def fragmentShaderMain : Vec4 := ⟨1, 0, 0, 1⟩

/-- State visible to the renderer: the particle store and the output
target's color/depth writes (one clip-space position and one color per
emitted point). -/
structure RenderState where
  store : ParticleStore
  colorDepthWrites : List (Vec4 × Vec4)
  deriving Repr

/-- `renderParticles(mvp)` (lines 175-181): `glDrawArrays(GL_POINTS, 0,
count)` emits one point per particle, its position projected by the vertex
shader and its color fixed by the fragment shader; the particle store is
never written. Modelling note: the code never binds the particle buffer
as a vertex attribute (there is no `glVertexAttribPointer` or
`glEnableVertexAttribArray`), so the real draw reads undefined attribute
data rather than the store; the projection here records the shaders'
intent, and only the non-mutation of the store is relied upon by the
theorems below. -/
def renderParticles (count : ℕ) (mvp : Mat4) (rs : RenderState) : RenderState :=
  { rs with
      colorDepthWrites :=
        (List.range count).map fun i =>
          (vertexShaderMain mvp (rs.store.positions.getD i Vec3.zero), fragmentShaderMain) }

/-- Status flags of the startup calls whose success `main` and the shader
init helpers can observe. -/
structure StartupFlags where
  glfwInitOk : Bool
  windowOk : Bool
  computeCompileOk : Bool
  computeLinkOk : Bool
  deriving DecidableEq, Repr

/-- Where control flow of `main` ends up: an early `return -1` or the frame
loop. -/
inductive MainOutcome
  | earlyExit (code : ℤ)
  | reachedFrameLoop
  deriving DecidableEq, Repr

/-- `checkShaderCompilation` (lines 64-72): on failure it writes one
diagnostic to `std::cerr` and returns normally; on success it writes
nothing. It never aborts. -/
def checkShaderCompilation (success : Bool) (shaderType : String) : List String :=
  if success then [] else ["Error compiling " ++ shaderType ++ " shader"]

/-- Diagnostics emitted by `initComputeShader` (lines 81-100): the
compile check plus, on link failure, one more `std::cerr` line; control
always continues to the caller. -/
def initComputeShaderLogs (compileOk linkOk : Bool) : List String :=
  checkShaderCompilation compileOk "Compute" ++
    (if linkOk then [] else ["Error linking compute shader program"])

/-- Control flow of `main` (lines 198-230): only `glfwInit` failure
(line 199) and window-creation failure (line 205) return early; shader
compile/link status is never consulted, and no configuration value is
validated, so control otherwise reaches the frame loop. -/
def mainControl (f : StartupFlags) : MainOutcome :=
  if !f.glfwInitOk then MainOutcome.earlyExit (-1)
  else if !f.windowOk then MainOutcome.earlyExit (-1)
  else MainOutcome.reachedFrameLoop

/-- All particles of a store agree on their position and on their velocity. -/
def ParticleStore.uniform (s : ParticleStore) : Prop :=
  (∀ a ∈ s.positions, ∀ b ∈ s.positions, a = b) ∧
    (∀ a ∈ s.velocities, ∀ b ∈ s.velocities, a = b)

/-! Helper lemmas about the dispatch and the frame loop. -/

lemma dispatchPositions_of_le (deltaTime : ℚ) (bound : ℕ) :
    ∀ (ps vs : List Vec3) (i : ℕ), bound ≤ i →
      dispatchPositions deltaTime bound i ps vs = ps := by
  intro ps
  induction ps with
  | nil => intro vs i _; cases vs <;> rfl
  | cons p ps ih =>
    intro vs i h
    cases vs with
    | nil => rfl
    | cons v vs =>
      simp only [dispatchPositions]
      rw [if_neg (Nat.not_lt.mpr h), ih vs (i + 1) (Nat.le_succ_of_le h)]

lemma dispatchPositions_cons (deltaTime : ℚ) (bound i : ℕ) (p v : Vec3) (ps vs : List Vec3) :
    dispatchPositions deltaTime bound i (p :: ps) (v :: vs) =
      (if i < bound then invocationUpdate deltaTime p v else p)
        :: dispatchPositions deltaTime bound (i + 1) ps vs := rfl

lemma invocationUpdate_zero (p v : Vec3) : invocationUpdate 0 p v = p := by
  cases p
  simp [invocationUpdate, Vec3.add, Vec3.smul]

lemma dispatchPositions_zero_dt (bound : ℕ) :
    ∀ (ps vs : List Vec3) (i : ℕ), dispatchPositions 0 bound i ps vs = ps := by
  intro ps
  induction ps with
  | nil => intro vs i; cases vs <;> rfl
  | cons p ps ih =>
    intro vs i
    cases vs with
    | nil => rfl
    | cons v vs =>
      simp only [dispatchPositions]
      rw [invocationUpdate_zero, ite_self, ih vs (i + 1)]

lemma runComputeShader_of_lt_groupSize (count : ℕ) (h : count < localSizeX)
    (s : ParticleStore) (deltaTime : ℚ) : runComputeShader count s deltaTime = s := by
  unfold runComputeShader dispatchedInvocations dispatchGroupCount
  rw [Nat.div_eq_of_lt h]
  rw [Nat.zero_mul, dispatchPositions_of_le deltaTime 0 s.positions s.velocities 0 (Nat.le_refl 0)]

lemma runComputeShader_zero_dt (count : ℕ) (s : ParticleStore) :
    runComputeShader count s 0 = s := by
  unfold runComputeShader
  rw [dispatchPositions_zero_dt]

lemma runComputeShader_velocities (count : ℕ) (s : ParticleStore) (deltaTime : ℚ) :
    (runComputeShader count s deltaTime).velocities = s.velocities := rfl

lemma tick_lastTime (count : ℕ) (st : DriverState) (inp : TickInput) :
    (tick count st inp).lastTime = inp.currentTime := rfl

lemma tick_paused (count : ℕ) (st : DriverState) (inp : TickInput)
    (h : inp.paused = true) : tick count st inp = ⟨inp.currentTime, st.store⟩ := by
  simp [tick, h]

lemma tick_running (count : ℕ) (st : DriverState) (inp : TickInput)
    (h : inp.paused = false) :
    tick count st inp =
      ⟨inp.currentTime,
        runComputeShader count st.store ((inp.currentTime - st.lastTime) * inp.speed)⟩ := by
  simp [tick, h]

lemma tick_velocities (count : ℕ) (st : DriverState) (inp : TickInput) :
    (tick count st inp).store.velocities = st.store.velocities := by
  cases h : inp.paused with
  | false =>
    rw [tick_running count st inp h]
    exact runComputeShader_velocities count st.store _
  | true => rw [tick_paused count st inp h]

lemma runTicks_append (count : ℕ) (st : DriverState) (a b : List TickInput) :
    runTicks count st (a ++ b) = runTicks count (runTicks count st a) b :=
  List.foldl_append (tick count) st a b

lemma runTicks_velocities (count : ℕ) :
    ∀ (inps : List TickInput) (st : DriverState),
      (runTicks count st inps).store.velocities = st.store.velocities := by
  intro inps
  induction inps with
  | nil => intro st; rfl
  | cons inp inps ih =>
    intro st
    show (runTicks count (tick count st inp) inps).store.velocities = st.store.velocities
    rw [ih (tick count st inp), tick_velocities]

lemma runTicks_store_all_paused (count : ℕ) :
    ∀ (inps : List TickInput) (st : DriverState),
      (∀ inp ∈ inps, inp.paused = true) →
      (runTicks count st inps).store = st.store := by
  intro inps
  induction inps with
  | nil => intro st _; rfl
  | cons inp inps ih =>
    intro st h
    show (runTicks count (tick count st inp) inps).store = st.store
    rw [ih (tick count st inp) fun x hx => h x (List.mem_cons_of_mem inp hx)]
    rw [tick_paused count st inp (h inp (List.mem_cons_self inp inps))]

lemma runTicks_store_of_lt_groupSize (count : ℕ) (h : count < localSizeX) :
    ∀ (inps : List TickInput) (st : DriverState),
      (runTicks count st inps).store = st.store := by
  intro inps
  induction inps with
  | nil => intro st; rfl
  | cons inp inps ih =>
    intro st
    show (runTicks count (tick count st inp) inps).store = st.store
    rw [ih (tick count st inp)]
    cases hp : inp.paused with
    | false =>
      rw [tick_running count st inp hp]
      exact runComputeShader_of_lt_groupSize count h st.store _
    | true => rw [tick_paused count st inp hp]

/-! Claim theorems. -/

/-- C1: the claim says one `runComputeShader` invocation updates every
particle `0..n-1`. The code dispatches `MAX_PARTICLES / 256 = 0` work
groups (C integer division rounds down), so with the program's own count of
100 not a single particle is updated, even though the initial velocity is
nonzero and `deltaTime = 1`. -/
theorem dispatch_undercoverage_at_default_count :
    dispatchGroupCount MAX_PARTICLES = 0 ∧
    (runComputeShader MAX_PARTICLES (initParticles MAX_PARTICLES) 1).positions =
      List.replicate MAX_PARTICLES Vec3.zero ∧
    defaultInitialVelocity ≠ Vec3.zero := by
  refine ⟨rfl, ?_, by norm_num [defaultInitialVelocity, Vec3.zero, Vec3.mk.injEq]⟩
  rw [runComputeShader_of_lt_groupSize MAX_PARTICLES (by decide) (initParticles MAX_PARTICLES) 1]
  rfl

/-- C2: the spec's end-to-end test — `n = 4`, positions at the origin,
velocity `(1,0,0)`, three steps of `deltaTime = 0.5` at speed 1 — expects
all positions at `(1.5, 0, 0)`. The code dispatches `4 / 256 = 0` groups,
so all four positions are still at the origin after the three ticks. -/
theorem end_to_end_positions_frozen :
    (runTicks 4 ⟨0, initParticlesWith 4 Vec3.zero ⟨1, 0, 0⟩⟩
        [⟨1/2, false, 1⟩, ⟨1, false, 1⟩, ⟨3/2, false, 1⟩]).store.positions =
      List.replicate 4 Vec3.zero ∧
    (⟨3/2, 0, 0⟩ : Vec3) ≠ Vec3.zero := by
  constructor
  · rw [runTicks_store_of_lt_groupSize 4 (by decide)]
    rfl
  · norm_num [Vec3.zero, Vec3.mk.injEq]

/-- C3: across any run of paused ticks the store (positions included) is
unchanged no matter what the sampled wall-clock times are, and the first
non-paused tick afterwards integrates with the delta measured from the
previous tick's time sample (`lastTime` is refreshed every iteration), not
with time accumulated while paused. -/
theorem pause_freezes_store_and_resume_uses_recent_delta
    (count : ℕ) (st : DriverState) (pre : List TickInput) (last resume : TickInput)
    (hpre : ∀ inp ∈ pre, inp.paused = true) (hlast : last.paused = true)
    (hres : resume.paused = false) :
    (runTicks count st (pre ++ [last])).store = st.store ∧
    (runTicks count st (pre ++ [last] ++ [resume])).store =
      runComputeShader count st.store
        ((resume.currentTime - last.currentTime) * resume.speed) := by
  have hmid : runTicks count st (pre ++ [last]) = ⟨last.currentTime, st.store⟩ := by
    rw [runTicks_append]
    have hstore := runTicks_store_all_paused count pre st hpre
    show tick count (runTicks count st pre) last = _
    rw [tick_paused count (runTicks count st pre) last hlast, hstore]
  constructor
  · rw [hmid]
  · rw [runTicks_append count st (pre ++ [last]) [resume], hmid]
    have h1 : runTicks count (⟨last.currentTime, st.store⟩ : DriverState) [resume] =
        tick count ⟨last.currentTime, st.store⟩ resume := rfl
    rw [h1, tick_running count ⟨last.currentTime, st.store⟩ resume hres]

/-- Witness for C3: two paused ticks at times 1 and 5 leave the store in
its initial state, and resuming at time 6 integrates with delta
`(6 - 5) * 1`, not the 6 units elapsed since the start. -/
theorem pause_resume_witness :
    (runTicks MAX_PARTICLES ⟨0, initParticles MAX_PARTICLES⟩
        ([⟨1, true, 1⟩] ++ [⟨5, true, 1⟩])).store = initParticles MAX_PARTICLES ∧
    (runTicks MAX_PARTICLES ⟨0, initParticles MAX_PARTICLES⟩
        ([⟨1, true, 1⟩] ++ [⟨5, true, 1⟩] ++ [⟨6, false, 1⟩])).store =
      runComputeShader MAX_PARTICLES (initParticles MAX_PARTICLES) ((6 - 5) * 1) :=
  pause_freezes_store_and_resume_uses_recent_delta MAX_PARTICLES
    ⟨0, initParticles MAX_PARTICLES⟩ [⟨1, true, 1⟩] ⟨5, true, 1⟩ ⟨6, false, 1⟩
    (by decide) rfl rfl

/-- C4 counterexample: the claim says the barrier is invoked on every tick,
paused ticks included. The `glMemoryBarrier` call lives inside
`runComputeShader`, which a paused tick skips entirely, so a paused tick
issues no barrier event at all. -/
theorem paused_tick_skips_barrier : FrameEvent.barrier ∉ tickEvents true := by decide

/-- C4 amended: on a non-paused tick the events are dispatch, then barrier,
then draw, then present — the barrier separates the integrator's writes
from the renderer's read; on a paused tick neither the dispatch nor the
barrier occurs (only draw and present), so no unbarriered write is ever
read. -/
theorem barrier_between_dispatch_and_draw_when_running :
    tickEvents false =
      [FrameEvent.dispatch, FrameEvent.barrier, FrameEvent.draw, FrameEvent.present] ∧
    tickEvents true = [FrameEvent.draw, FrameEvent.present] ∧
    FrameEvent.dispatch ∉ tickEvents true := by
  refine ⟨rfl, rfl, by decide⟩

/-- C5 counterexample: the claim says startup rejects a negative speed
multiplier with a ConfigurationError before the loop, so no integration
step ever runs with a negative multiplier. The code validates nothing:
`main` consults no configuration value at all, so control reaches the
frame loop, and a running tick at the program's count of 100 issues the
integrator dispatch with the negative product `deltaTime * speed = -1` as
its uniform — an integration step runs with a negative multiplier,
unrejected. (All of this stays at count 100, where the embedding and the
code agree.) -/
theorem negative_speed_reaches_integrator :
    mainControl ⟨true, true, true, true⟩ = MainOutcome.reachedFrameLoop ∧
    FrameEvent.dispatch ∈ tickEvents false ∧
    (tick MAX_PARTICLES ⟨0, initParticles MAX_PARTICLES⟩ ⟨1, false, -1⟩).store =
      runComputeShader MAX_PARTICLES (initParticles MAX_PARTICLES) ((1 - 0) * (-1)) ∧
    ((1 - 0) * (-1) : ℚ) < 0 := by
  refine ⟨rfl, by decide, ?_, by norm_num⟩
  rw [tick_running MAX_PARTICLES ⟨0, initParticles MAX_PARTICLES⟩ ⟨1, false, -1⟩ rfl]

/-- C5 amended: the speed multiplier is never validated — whatever value
the global holds, a running tick hands `deltaTime * speed` straight to the
integrator — and a multiplier of 0 produces zero displacement for every
particle on every step. -/
theorem speed_unvalidated_and_zero_speed_freezes
    (count : ℕ) (st : DriverState) (inp : TickInput) (h : inp.paused = false) :
    (tick count st inp).store =
      runComputeShader count st.store ((inp.currentTime - st.lastTime) * inp.speed) ∧
    (inp.speed = 0 → (tick count st inp).store = st.store) := by
  constructor
  · rw [tick_running count st inp h]
  · intro h0
    rw [tick_running count st inp h, h0, mul_zero, runComputeShader_zero_dt]

/-- Witness for C5 amended: at the program's count, a running tick with
speed 0 leaves the store exactly as initialized. -/
theorem speed_zero_witness :
    (tick MAX_PARTICLES ⟨0, initParticles MAX_PARTICLES⟩ ⟨2, false, 0⟩).store =
      initParticles MAX_PARTICLES :=
  (speed_unvalidated_and_zero_speed_freezes MAX_PARTICLES
    ⟨0, initParticles MAX_PARTICLES⟩ ⟨2, false, 0⟩ rfl).2 rfl

/-- C6: `initParticles` makes one allocation of `2 * count * sizeof(vec3)`
bytes with the positions region at offset 0 immediately followed by the
velocities region, fills both regions to length `count`, puts every
position at the origin and every velocity at the fixed nonzero x-axis
vector `(0.01, 0, 0)`. -/
theorem initParticles_layout_and_contents (count : ℕ) :
    (particleBufferLayout count).totalSize = 2 * count * sizeofVec3 ∧
    (particleBufferLayout count).posOffset = 0 ∧
    (particleBufferLayout count).velOffset =
      (particleBufferLayout count).posOffset + (particleBufferLayout count).posSize ∧
    (particleBufferLayout count).totalSize =
      (particleBufferLayout count).posSize + (particleBufferLayout count).velSize ∧
    (initParticles count).positions.length = count ∧
    (initParticles count).velocities.length = count ∧
    (∀ p ∈ (initParticles count).positions, p = Vec3.zero) ∧
    (∀ v ∈ (initParticles count).velocities, v = defaultInitialVelocity) ∧
    defaultInitialVelocity = ⟨1/100, 0, 0⟩ ∧
    defaultInitialVelocity ≠ Vec3.zero := by
  refine ⟨?_, rfl, ?_, ?_, ?_, ?_, ?_, ?_, rfl,
    by norm_num [defaultInitialVelocity, Vec3.zero, Vec3.mk.injEq]⟩
  · show count * sizeofVec3 * 2 = 2 * count * sizeofVec3
    ring
  · show count * sizeofVec3 = 0 + count * sizeofVec3
    rw [Nat.zero_add]
  · show count * sizeofVec3 * 2 = count * sizeofVec3 + count * sizeofVec3
    ring
  · exact List.length_replicate count defaultInitialPosition
  · exact List.length_replicate count defaultInitialVelocity
  · intro p hp
    exact List.eq_of_mem_replicate hp
  · intro v hv
    exact List.eq_of_mem_replicate hv

/-- Witness for C6: at the program's count of 100 the buffer is 2400 bytes
and the first position is the origin. -/
theorem initParticles_layout_witness :
    (particleBufferLayout MAX_PARTICLES).totalSize = 2400 ∧
    (initParticles MAX_PARTICLES).positions.getD 0 Vec3.zero = Vec3.zero := by
  obtain ⟨h1, _, _, _, _, _, hp, _, _, _⟩ := initParticles_layout_and_contents MAX_PARTICLES
  constructor
  · rw [h1]
    decide
  · exact hp ((initParticles MAX_PARTICLES).positions.getD 0 Vec3.zero) (by decide)

/-- C7 counterexample: the claim says a compile or link failure aborts the
process before the frame loop. `checkShaderCompilation` and the link check
only write diagnostics and return, and `main` never consults shader status:
with both compute-shader checks failed, control still reaches the frame
loop. -/
theorem shader_failure_not_fatal :
    mainControl ⟨true, true, false, false⟩ = MainOutcome.reachedFrameLoop ∧
    initComputeShaderLogs false false ≠ [] := by
  exact ⟨rfl, by decide⟩

/-- C7 amended: shader compile/link failures at startup are reported on the
diagnostic channel but are not fatal — whenever GLFW init and window
creation succeed, `main` reaches the frame loop regardless of shader
status, and a failed compile still leaves at least one diagnostic. -/
theorem shader_failure_logged_but_loop_reached
    (f : StartupFlags) (hg : f.glfwInitOk = true) (hw : f.windowOk = true) :
    mainControl f = MainOutcome.reachedFrameLoop ∧
    (f.computeCompileOk = false →
      initComputeShaderLogs f.computeCompileOk f.computeLinkOk ≠ []) := by
  constructor
  · simp [mainControl, hg, hw]
  · intro hc
    rw [hc]
    simp [initComputeShaderLogs, checkShaderCompilation]

/-- Witness for C7 amended: compute-shader compilation failed but linking
succeeded; the loop is still reached and a diagnostic was emitted. -/
theorem shader_failure_witness :
    mainControl ⟨true, true, false, true⟩ = MainOutcome.reachedFrameLoop ∧
    initComputeShaderLogs false true ≠ [] :=
  ⟨(shader_failure_logged_but_loop_reached ⟨true, true, false, true⟩ rfl rfl).1,
   (shader_failure_logged_but_loop_reached ⟨true, true, false, true⟩ rfl rfl).2 rfl⟩

/-- C8: `renderParticles` never mutates the particle store — it is byte
for byte the same record before and after the draw — and its only output
is the list of color/depth writes: one projected point with the fixed
fragment color per particle index. -/
theorem renderParticles_preserves_store (count : ℕ) (mvp : Mat4) (rs : RenderState) :
    (renderParticles count mvp rs).store = rs.store ∧
    (renderParticles count mvp rs).colorDepthWrites =
      (List.range count).map (fun i =>
        (vertexShaderMain mvp (rs.store.positions.getD i Vec3.zero), fragmentShaderMain)) :=
  ⟨rfl, rfl⟩

/-- Witness for C8: a concrete draw over the initialized store leaves the
store untouched. -/
theorem renderParticles_witness :
    (renderParticles MAX_PARTICLES ⟨fun _ _ => 0⟩
        ⟨initParticles MAX_PARTICLES, []⟩).store = initParticles MAX_PARTICLES :=
  (renderParticles_preserves_store MAX_PARTICLES ⟨fun _ _ => 0⟩
    ⟨initParticles MAX_PARTICLES, []⟩).1

/-- C9: the compute kernel writes only `particles[id].position`, so one
step leaves the whole velocity region unchanged, and so does any run of
frame-loop ticks — every particle's velocity stays at its initial value for
the lifetime of the process. -/
theorem integrator_never_modifies_velocities (count : ℕ) (s : ParticleStore)
    (deltaTime : ℚ) (st : DriverState) (inps : List TickInput) :
    (runComputeShader count s deltaTime).velocities = s.velocities ∧
    (runTicks count st inps).store.velocities = st.store.velocities :=
  ⟨runComputeShader_velocities count s deltaTime, runTicks_velocities count inps st⟩

/-- Witness for C9: one step at the program's count leaves the velocities
as initialized. -/
theorem integrator_velocities_witness :
    (runComputeShader MAX_PARTICLES (initParticles MAX_PARTICLES) 1).velocities =
      (initParticles MAX_PARTICLES).velocities :=
  (integrator_never_modifies_velocities MAX_PARTICLES (initParticles MAX_PARTICLES) 1
    ⟨0, initParticles MAX_PARTICLES⟩ []).1

/-- C10: from the program's initial state (count `MAX_PARTICLES`, uniform
initialization), every state reachable by any sequence of frame-loop ticks
has all particles at the same position and with the same velocity as each
other. -/
theorem reachable_states_uniform (t0 : ℚ) (inps : List TickInput) :
    ParticleStore.uniform
      ((runTicks MAX_PARTICLES ⟨t0, initParticles MAX_PARTICLES⟩ inps).store) := by
  rw [runTicks_store_of_lt_groupSize MAX_PARTICLES (by decide)]
  constructor
  · intro a ha b hb
    rw [List.eq_of_mem_replicate ha, List.eq_of_mem_replicate hb]
  · intro a ha b hb
    rw [List.eq_of_mem_replicate ha, List.eq_of_mem_replicate hb]

/-- Witness for C10: the state after one running tick at time 1 is
uniform. -/
theorem reachable_states_uniform_witness :
    ParticleStore.uniform
      ((runTicks MAX_PARTICLES ⟨0, initParticles MAX_PARTICLES⟩ [⟨1, false, 1⟩]).store) :=
  reachable_states_uniform 0 [⟨1, false, 1⟩]

end Crystal
